import Mathlib

/-!
Verification of the `datainfo` Go package (file `datainfo.go`).

The package is a functional-options configuration builder: a `DataInfo`
record whose optional fields are Go pointers (here `Option`), a table of
process-wide defaults set in `init` (here plain definitions), option
functions that each set one field (with a fallback-to-default policy for
some of them), and three constructors `New`, `NewMinimal`, `Copy`.

Go pointers of the record are modelled as `Option` values; a Go option
function `func(do *DataInfo) error` always returns a nil error and the
constructors discard it, so options are modelled as pure state
transformers `DataInfo → DataInfo`.  A nil entry in a Go option slice is
modelled as `none` in a `List (Option DataOption)`.

A second, heap-passing model (`Heap`, `DataInfoRef`, `CopyHeap`,
`applyOptH`) mirrors the pointer structure of the Go code explicitly, to
state and prove the aliasing/frame claims: `Copy` allocates fresh cells
for every field and never writes a pre-existing cell.
-/

namespace Datainfo

/-- Go `type LimitPosition uint8`; only the values 0 and 1 are used, so no
overflow arithmetic arises and plain `Nat` is a faithful carrier. -/
abbrev LimitPosition := Nat

/-- Go constant `FRONT LimitPosition = 0`. -/
def FRONT : LimitPosition := 0

/-- Go constant `REAR LimitPosition = 1`. -/
def REAR : LimitPosition := 1

/-- Go `SequenceGeneratorInfo` struct. -/
structure SequenceGeneratorInfo where
  UpsertQuery : String
  ResultQuery : String
  NamePlaceHolder : String
deriving DecidableEq

/-- Go `DataInfo` struct: every `*T` field becomes `Option T` (a nil
pointer is `none`); `ResultLimitPosition` is a plain value field. -/
structure DataInfo where
  Schema : Option String
  ReferenceMode : Option Bool
  ReferenceModePrefix : Option String
  InterpolateTables : Option Bool
  ConnectionString : Option String
  DriverName : Option String
  HelperID : Option String
  ParameterInSequence : Option Bool
  ParameterPlaceHolder : Option String
  StringEnclosingChar : Option String
  StringEscapeChar : Option String
  ReservedWordEscapeChar : Option String
  MaxOpenConnection : Option Int
  MaxIdleConnection : Option Int
  MaxConnectionLifetime : Option Int
  MaxConnectionIdleTime : Option Int
  Ping : Option Bool
  ResultLimitPosition : LimitPosition
  SequenceGenerator : Option SequenceGeneratorInfo
deriving DecidableEq

/-- Go `type DataOption func(do *DataInfo) error`: every option in the
source returns a nil error unconditionally and the constructors discard
the returned error, so an option is modelled as a pure transformer. -/
def DataOption := DataInfo → DataInfo

/-- Package variable `refModePfx`, set in `init`. -/
def refModePfx : String := "ref"

/-- Package variable `paramPh`, set in `init`. -/
def paramPh : String := "?"

/-- Package variable `strEncChar`, set in `init`. -/
def strEncChar : String := "\'"

/-- Package variable `strEscChar`, set in `init`. -/
def strEscChar : String := "\\"

/-- Package variable `resWrdEscChar`, set in `init`. -/
def resWrdEscChar : String := "[]"

/-- Package variable `intTbls`, set in `init`. -/
def intTbls : Bool := true

/-- Package variable `paramInSeq`, set in `init`. -/
def paramInSeq : Bool := true

/-- Package variable `maxOpnConn`, set in `init`. -/
def maxOpnConn : Int := 25

/-- Package variable `maxIdlConn`, set in `init`. -/
def maxIdlConn : Int := 25

/-- Package variable `maxConnLt`, set in `init` to `int(5 * time.Minute)`
(nanoseconds). -/
def maxConnLt : Int := 5 * 60 * 1000000000

/-- Package variable `maxConnIdlLt`, set in `init` to
`int(3 * time.Minute)` (nanoseconds). -/
def maxConnIdlLt : Int := 3 * 60 * 1000000000

/-- Package variable `lmit`, set in `init`. -/
def lmit : LimitPosition := REAR

/-- The option-application loop shared by `New` and `Copy`:
`for _, o := range options { if o == nil { continue }; o(&n) }`. -/
def applyOptions (n : DataInfo) : List (Option DataOption) → DataInfo
  | [] => n
  | none :: rest => applyOptions n rest
  | some o :: rest => applyOptions (o n) rest

/-- Go `New`: a record whose pointer fields are fresh zero values
(`new(string)` is `some ""`, `new(bool)` is `some false`) or point at the
package defaults, with `ConnectionString`, `DriverName`, `HelperID` and
`SequenceGenerator` left nil, then the option loop. -/
def New (options : List (Option DataOption)) : DataInfo :=
  let n : DataInfo :=
    { Schema := some ""
      ReferenceMode := some false
      ReferenceModePrefix := some refModePfx
      InterpolateTables := some intTbls
      ConnectionString := none
      DriverName := none
      HelperID := none
      ParameterInSequence := some paramInSeq
      ParameterPlaceHolder := some paramPh
      StringEnclosingChar := some strEncChar
      StringEscapeChar := some strEscChar
      ReservedWordEscapeChar := some resWrdEscChar
      MaxOpenConnection := some maxOpnConn
      MaxIdleConnection := some maxIdlConn
      MaxConnectionLifetime := some maxConnLt
      MaxConnectionIdleTime := some maxConnIdlLt
      Ping := some false
      ResultLimitPosition := lmit
      SequenceGenerator := none }
  applyOptions n options

/-- Go `Schema` option: unconditional set. -/
def Schema (sch : String) : DataOption := fun d =>
  { d with Schema := some sch }

/-- Go `ReferenceMode` option: unconditional set. -/
def ReferenceMode (indeed : Bool) : DataOption := fun d =>
  { d with ReferenceMode := some indeed }

/-- Go `ReferenceModePrefix` option: empty candidate falls back to the
package default `refModePfx`. -/
def ReferenceModePrefix (pfx : String) : DataOption := fun d =>
  let pfx := if pfx = "" then refModePfx else pfx
  { d with ReferenceModePrefix := some pfx }

/-- Go `InterpolateTables` option: unconditional set. -/
def InterpolateTables (indeed : Bool) : DataOption := fun d =>
  { d with InterpolateTables := some indeed }

/-- Go `ConnectionString` option: an empty candidate returns early
without setting the field. -/
def ConnectionString (conn : String) : DataOption := fun d =>
  if conn = "" then d else { d with ConnectionString := some conn }

/-- Go `DriverName` option: an empty candidate returns early without
setting the field. -/
def DriverName (name : String) : DataOption := fun d =>
  if name = "" then d else { d with DriverName := some name }

/-- Go `HelperID` option: an empty candidate returns early without
setting the field. -/
def HelperID (id : String) : DataOption := fun d =>
  if id = "" then d else { d with HelperID := some id }

/-- Go `ParameterInSequence` option: unconditional set. -/
def ParameterInSequence (indeed : Bool) : DataOption := fun d =>
  { d with ParameterInSequence := some indeed }

/-- Go `ParameterPlaceHolder` option: empty candidate falls back to
`paramPh`. -/
def ParameterPlaceHolder (holder : String) : DataOption := fun d =>
  let holder := if holder = "" then paramPh else holder
  { d with ParameterPlaceHolder := some holder }

/-- Go `StringEnclosingChar` option: empty candidate falls back to
`strEncChar`. -/
def StringEnclosingChar (char : String) : DataOption := fun d =>
  let char := if char = "" then strEncChar else char
  { d with StringEnclosingChar := some char }

/-- Go `StringEscapeChar` option: empty candidate falls back to
`strEscChar`. -/
def StringEscapeChar (char : String) : DataOption := fun d =>
  let char := if char = "" then strEscChar else char
  { d with StringEscapeChar := some char }

/-- Go `ReservedWordEscapeChar` option: empty candidate falls back to
`resWrdEscChar`. -/
def ReservedWordEscapeChar (char : String) : DataOption := fun d =>
  let char := if char = "" then resWrdEscChar else char
  { d with ReservedWordEscapeChar := some char }

/-- Go `MaxOpenConnection` option: zero candidate falls back to
`maxOpnConn`. -/
def MaxOpenConnection (max : Int) : DataOption := fun d =>
  let max := if max = 0 then maxOpnConn else max
  { d with MaxOpenConnection := some max }

/-- Go `MaxIdleConnection` option: zero candidate falls back to
`maxIdlConn`. -/
def MaxIdleConnection (max : Int) : DataOption := fun d =>
  let max := if max = 0 then maxIdlConn else max
  { d with MaxIdleConnection := some max }

/-- Go `MaxConnectionLifetime` option: zero candidate falls back to
`maxConnLt`. -/
def MaxConnectionLifetime (max : Int) : DataOption := fun d =>
  let max := if max = 0 then maxConnLt else max
  { d with MaxConnectionLifetime := some max }

/-- Go `MaxConnectionIdleTime` option: zero candidate falls back to
`maxConnIdlLt`. -/
def MaxConnectionIdleTime (max : Int) : DataOption := fun d =>
  let max := if max = 0 then maxConnIdlLt else max
  { d with MaxConnectionIdleTime := some max }

/-- Go `Ping` option: unconditional set. -/
def Ping (indeed : Bool) : DataOption := fun d =>
  { d with Ping := some indeed }

/-- Go `ResultLimitPosition` option: unconditional set of the plain
(non-pointer) field. -/
def ResultLimitPosition (l : LimitPosition) : DataOption := fun d =>
  { d with ResultLimitPosition := l }

/-- Go `SequenceGenerator` option: points the field at the (fresh copy of
the) argument record. -/
def SequenceGenerator (seqGen : SequenceGeneratorInfo) : DataOption := fun d =>
  { d with SequenceGenerator := some seqGen }

/-- Go `NewMinimal`: builds the three mandatory options, appends the
caller's options when any were given, and delegates to `New`.  The `user`
argument is accepted but never used by the body. -/
def NewMinimal (connStr schema driver user : String)
    (options : List (Option DataOption)) : DataInfo :=
  let opts : List (Option DataOption) :=
    [some (ConnectionString connStr), some (Schema schema), some (DriverName driver)]
  let opts := if options.length > 0 then opts ++ options else opts
  New opts

/-- One conditional field copy of Go `Copy`:
`if di.X != nil { n.X = new(T); *n.X = *di.X }`. -/
def copyOptCell {α : Type} : Option α → Option α
  | some v => some v
  | none => none

/-- The sequence-generator copy of Go `Copy`: a fresh record built from
the three sub-fields of the source record. -/
def copySeqGen : Option SequenceGeneratorInfo → Option SequenceGeneratorInfo
  | some sg => some { UpsertQuery := sg.UpsertQuery, ResultQuery := sg.ResultQuery,
                      NamePlaceHolder := sg.NamePlaceHolder }
  | none => none

/-- Go `Copy`: start from the zero record `DataInfo{}`, conditionally
copy each present field, copy the sequence generator sub-field by
sub-field, copy `ResultLimitPosition` verbatim, then the option loop. -/
def Copy (di : DataInfo) (options : List (Option DataOption)) : DataInfo :=
  let n : DataInfo :=
    { Schema := copyOptCell di.Schema
      ReferenceMode := copyOptCell di.ReferenceMode
      ReferenceModePrefix := copyOptCell di.ReferenceModePrefix
      InterpolateTables := copyOptCell di.InterpolateTables
      ConnectionString := copyOptCell di.ConnectionString
      DriverName := copyOptCell di.DriverName
      HelperID := copyOptCell di.HelperID
      ParameterInSequence := copyOptCell di.ParameterInSequence
      ParameterPlaceHolder := copyOptCell di.ParameterPlaceHolder
      StringEnclosingChar := copyOptCell di.StringEnclosingChar
      StringEscapeChar := copyOptCell di.StringEscapeChar
      ReservedWordEscapeChar := copyOptCell di.ReservedWordEscapeChar
      MaxOpenConnection := copyOptCell di.MaxOpenConnection
      MaxIdleConnection := copyOptCell di.MaxIdleConnection
      MaxConnectionLifetime := copyOptCell di.MaxConnectionLifetime
      MaxConnectionIdleTime := copyOptCell di.MaxConnectionIdleTime
      Ping := copyOptCell di.Ping
      ResultLimitPosition := di.ResultLimitPosition
      SequenceGenerator := copySeqGen di.SequenceGenerator }
  applyOptions n options

/-- Enumeration of the concrete option functions exported by the package,
each constructor carrying that option's candidate value.  Used to
quantify over "every option function of the package". -/
inductive OptSpec where
  | schema : String → OptSpec
  | referenceMode : Bool → OptSpec
  | referenceModePrefix : String → OptSpec
  | interpolateTables : Bool → OptSpec
  | connectionString : String → OptSpec
  | driverName : String → OptSpec
  | helperID : String → OptSpec
  | parameterInSequence : Bool → OptSpec
  | parameterPlaceHolder : String → OptSpec
  | stringEnclosingChar : String → OptSpec
  | stringEscapeChar : String → OptSpec
  | reservedWordEscapeChar : String → OptSpec
  | maxOpenConnection : Int → OptSpec
  | maxIdleConnection : Int → OptSpec
  | maxConnectionLifetime : Int → OptSpec
  | maxConnectionIdleTime : Int → OptSpec
  | ping : Bool → OptSpec
  | resultLimitPosition : LimitPosition → OptSpec
  | sequenceGenerator : SequenceGeneratorInfo → OptSpec
deriving DecidableEq

/-- Dispatch an `OptSpec` to the corresponding source option function. -/
def applyOpt : OptSpec → DataOption
  | .schema s => Schema s
  | .referenceMode b => ReferenceMode b
  | .referenceModePrefix p => ReferenceModePrefix p
  | .interpolateTables b => InterpolateTables b
  | .connectionString c => ConnectionString c
  | .driverName nm => DriverName nm
  | .helperID i => HelperID i
  | .parameterInSequence b => ParameterInSequence b
  | .parameterPlaceHolder s => ParameterPlaceHolder s
  | .stringEnclosingChar s => StringEnclosingChar s
  | .stringEscapeChar s => StringEscapeChar s
  | .reservedWordEscapeChar s => ReservedWordEscapeChar s
  | .maxOpenConnection n => MaxOpenConnection n
  | .maxIdleConnection n => MaxIdleConnection n
  | .maxConnectionLifetime n => MaxConnectionLifetime n
  | .maxConnectionIdleTime n => MaxConnectionIdleTime n
  | .ping b => Ping b
  | .resultLimitPosition l => ResultLimitPosition l
  | .sequenceGenerator g => SequenceGenerator g

/-- Names of the fields of `DataInfo`, used to quantify over fields in
frame statements. -/
inductive Field where
  | schema | referenceMode | referenceModePrefix | interpolateTables
  | connectionString | driverName | helperID | parameterInSequence
  | parameterPlaceHolder | stringEnclosingChar | stringEscapeChar
  | reservedWordEscapeChar | maxOpenConnection | maxIdleConnection
  | maxConnectionLifetime | maxConnectionIdleTime | ping
  | resultLimitPosition | sequenceGenerator
deriving DecidableEq

/-- A heterogeneous view of one field's content. -/
inductive FVal where
  | ostr : Option String → FVal
  | obool : Option Bool → FVal
  | oint : Option Int → FVal
  | olim : LimitPosition → FVal
  | oseq : Option SequenceGeneratorInfo → FVal
deriving DecidableEq

/-- Observe one field of a descriptor. -/
def fieldVal (d : DataInfo) : Field → FVal
  | .schema => .ostr d.Schema
  | .referenceMode => .obool d.ReferenceMode
  | .referenceModePrefix => .ostr d.ReferenceModePrefix
  | .interpolateTables => .obool d.InterpolateTables
  | .connectionString => .ostr d.ConnectionString
  | .driverName => .ostr d.DriverName
  | .helperID => .ostr d.HelperID
  | .parameterInSequence => .obool d.ParameterInSequence
  | .parameterPlaceHolder => .ostr d.ParameterPlaceHolder
  | .stringEnclosingChar => .ostr d.StringEnclosingChar
  | .stringEscapeChar => .ostr d.StringEscapeChar
  | .reservedWordEscapeChar => .ostr d.ReservedWordEscapeChar
  | .maxOpenConnection => .oint d.MaxOpenConnection
  | .maxIdleConnection => .oint d.MaxIdleConnection
  | .maxConnectionLifetime => .oint d.MaxConnectionLifetime
  | .maxConnectionIdleTime => .oint d.MaxConnectionIdleTime
  | .ping => .obool d.Ping
  | .resultLimitPosition => .olim d.ResultLimitPosition
  | .sequenceGenerator => .oseq d.SequenceGenerator

/-- The single field an option function targets. -/
def targetField : OptSpec → Field
  | .schema _ => .schema
  | .referenceMode _ => .referenceMode
  | .referenceModePrefix _ => .referenceModePrefix
  | .interpolateTables _ => .interpolateTables
  | .connectionString _ => .connectionString
  | .driverName _ => .driverName
  | .helperID _ => .helperID
  | .parameterInSequence _ => .parameterInSequence
  | .parameterPlaceHolder _ => .parameterPlaceHolder
  | .stringEnclosingChar _ => .stringEnclosingChar
  | .stringEscapeChar _ => .stringEscapeChar
  | .reservedWordEscapeChar _ => .reservedWordEscapeChar
  | .maxOpenConnection _ => .maxOpenConnection
  | .maxIdleConnection _ => .maxIdleConnection
  | .maxConnectionLifetime _ => .maxConnectionLifetime
  | .maxConnectionIdleTime _ => .maxConnectionIdleTime
  | .ping _ => .ping
  | .resultLimitPosition _ => .resultLimitPosition
  | .sequenceGenerator _ => .sequenceGenerator

/-- The candidate is non-empty / non-zero (always satisfied for option
functions whose candidate type has no fallback check). -/
def nonzeroCand : OptSpec → Prop
  | .schema _ => True
  | .referenceMode _ => True
  | .referenceModePrefix p => p ≠ ""
  | .interpolateTables _ => True
  | .connectionString c => c ≠ ""
  | .driverName nm => nm ≠ ""
  | .helperID i => i ≠ ""
  | .parameterInSequence _ => True
  | .parameterPlaceHolder s => s ≠ ""
  | .stringEnclosingChar s => s ≠ ""
  | .stringEscapeChar s => s ≠ ""
  | .reservedWordEscapeChar s => s ≠ ""
  | .maxOpenConnection n => n ≠ 0
  | .maxIdleConnection n => n ≠ 0
  | .maxConnectionLifetime n => n ≠ 0
  | .maxConnectionIdleTime n => n ≠ 0
  | .ping _ => True
  | .resultLimitPosition _ => True
  | .sequenceGenerator _ => True

/-- The field content an option writes when its candidate is taken
verbatim. -/
def candVal : OptSpec → FVal
  | .schema s => .ostr (some s)
  | .referenceMode b => .obool (some b)
  | .referenceModePrefix p => .ostr (some p)
  | .interpolateTables b => .obool (some b)
  | .connectionString c => .ostr (some c)
  | .driverName nm => .ostr (some nm)
  | .helperID i => .ostr (some i)
  | .parameterInSequence b => .obool (some b)
  | .parameterPlaceHolder s => .ostr (some s)
  | .stringEnclosingChar s => .ostr (some s)
  | .stringEscapeChar s => .ostr (some s)
  | .reservedWordEscapeChar s => .ostr (some s)
  | .maxOpenConnection n => .oint (some n)
  | .maxIdleConnection n => .oint (some n)
  | .maxConnectionLifetime n => .oint (some n)
  | .maxConnectionIdleTime n => .oint (some n)
  | .ping b => .obool (some b)
  | .resultLimitPosition l => .olim l
  | .sequenceGenerator g => .oseq (some g)

/-- A heap cell: the value a Go pointer field of `DataInfo` can point
at. -/
inductive Val where
  | vstr : String → Val
  | vbool : Bool → Val
  | vint : Int → Val
  | vseq : SequenceGeneratorInfo → Val
deriving DecidableEq

/-- A heap: allocation appends a cell, the address of a cell is its
index. -/
abbrev Heap := List Val

/-- A `DataInfo` with its pointer fields kept as heap addresses, to make
the pointer structure of the Go code explicit. -/
structure DataInfoRef where
  Schema : Option Nat
  ReferenceMode : Option Nat
  ReferenceModePrefix : Option Nat
  InterpolateTables : Option Nat
  ConnectionString : Option Nat
  DriverName : Option Nat
  HelperID : Option Nat
  ParameterInSequence : Option Nat
  ParameterPlaceHolder : Option Nat
  StringEnclosingChar : Option Nat
  StringEscapeChar : Option Nat
  ReservedWordEscapeChar : Option Nat
  MaxOpenConnection : Option Nat
  MaxIdleConnection : Option Nat
  MaxConnectionLifetime : Option Nat
  MaxConnectionIdleTime : Option Nat
  Ping : Option Nat
  ResultLimitPosition : LimitPosition
  SequenceGenerator : Option Nat
deriving DecidableEq

/-- One conditional field copy of Go `Copy` at heap level: when the
source pointer is non-nil, allocate a fresh cell holding the pointed-to
value and return its address. -/
def copyCell (h : Heap) (src : Option Nat) : Heap × Option Nat :=
  match src with
  | none => (h, none)
  | some a =>
    match h.get? a with
    | some v => (h ++ [v], some h.length)
    | none => (h, none)

/-- The sequence-generator copy of Go `Copy` at heap level: allocate a
fresh record built from the three sub-fields of the source record. -/
def copySeqCell (h : Heap) (src : Option Nat) : Heap × Option Nat :=
  match src with
  | none => (h, none)
  | some a =>
    match h.get? a with
    | some (Val.vseq g) =>
      (h ++ [Val.vseq { UpsertQuery := g.UpsertQuery, ResultQuery := g.ResultQuery,
                        NamePlaceHolder := g.NamePlaceHolder }], some h.length)
    | _ => (h, none)

/-- Go `Copy` at heap level, options not yet applied: the seventeen
conditional pointer copies in source order, the sequence-generator copy,
and the verbatim `ResultLimitPosition` copy. -/
def CopyHeap (h : Heap) (di : DataInfoRef) : Heap × DataInfoRef :=
  let r1 := copyCell h di.Schema
  let r2 := copyCell r1.1 di.ReferenceMode
  let r3 := copyCell r2.1 di.ReferenceModePrefix
  let r4 := copyCell r3.1 di.InterpolateTables
  let r5 := copyCell r4.1 di.ConnectionString
  let r6 := copyCell r5.1 di.DriverName
  let r7 := copyCell r6.1 di.HelperID
  let r8 := copyCell r7.1 di.ParameterInSequence
  let r9 := copyCell r8.1 di.ParameterPlaceHolder
  let r10 := copyCell r9.1 di.StringEnclosingChar
  let r11 := copyCell r10.1 di.StringEscapeChar
  let r12 := copyCell r11.1 di.ReservedWordEscapeChar
  let r13 := copyCell r12.1 di.MaxOpenConnection
  let r14 := copyCell r13.1 di.MaxIdleConnection
  let r15 := copyCell r14.1 di.MaxConnectionLifetime
  let r16 := copyCell r15.1 di.MaxConnectionIdleTime
  let r17 := copyCell r16.1 di.Ping
  let r18 := copySeqCell r17.1 di.SequenceGenerator
  (r18.1,
   { Schema := r1.2, ReferenceMode := r2.2, ReferenceModePrefix := r3.2,
     InterpolateTables := r4.2, ConnectionString := r5.2, DriverName := r6.2,
     HelperID := r7.2, ParameterInSequence := r8.2, ParameterPlaceHolder := r9.2,
     StringEnclosingChar := r10.2, StringEscapeChar := r11.2,
     ReservedWordEscapeChar := r12.2, MaxOpenConnection := r13.2,
     MaxIdleConnection := r14.2, MaxConnectionLifetime := r15.2,
     MaxConnectionIdleTime := r16.2, Ping := r17.2,
     ResultLimitPosition := di.ResultLimitPosition, SequenceGenerator := r18.2 })

/-- One option function at heap level: every set allocates a fresh cell
(`d.X = new(T); *d.X = v`) and repoints the field at it; the fallback and
early-return policies are those of the source functions. -/
def applyOptH (o : OptSpec) (h : Heap) (d : DataInfoRef) : Heap × DataInfoRef :=
  match o with
  | .schema s => (h ++ [Val.vstr s], { d with Schema := some h.length })
  | .referenceMode b => (h ++ [Val.vbool b], { d with ReferenceMode := some h.length })
  | .referenceModePrefix p =>
    let p := if p = "" then refModePfx else p
    (h ++ [Val.vstr p], { d with ReferenceModePrefix := some h.length })
  | .interpolateTables b => (h ++ [Val.vbool b], { d with InterpolateTables := some h.length })
  | .connectionString c =>
    if c = "" then (h, d)
    else (h ++ [Val.vstr c], { d with ConnectionString := some h.length })
  | .driverName nm =>
    if nm = "" then (h, d)
    else (h ++ [Val.vstr nm], { d with DriverName := some h.length })
  | .helperID i =>
    if i = "" then (h, d)
    else (h ++ [Val.vstr i], { d with HelperID := some h.length })
  | .parameterInSequence b => (h ++ [Val.vbool b], { d with ParameterInSequence := some h.length })
  | .parameterPlaceHolder s =>
    let s := if s = "" then paramPh else s
    (h ++ [Val.vstr s], { d with ParameterPlaceHolder := some h.length })
  | .stringEnclosingChar s =>
    let s := if s = "" then strEncChar else s
    (h ++ [Val.vstr s], { d with StringEnclosingChar := some h.length })
  | .stringEscapeChar s =>
    let s := if s = "" then strEscChar else s
    (h ++ [Val.vstr s], { d with StringEscapeChar := some h.length })
  | .reservedWordEscapeChar s =>
    let s := if s = "" then resWrdEscChar else s
    (h ++ [Val.vstr s], { d with ReservedWordEscapeChar := some h.length })
  | .maxOpenConnection n =>
    let n := if n = 0 then maxOpnConn else n
    (h ++ [Val.vint n], { d with MaxOpenConnection := some h.length })
  | .maxIdleConnection n =>
    let n := if n = 0 then maxIdlConn else n
    (h ++ [Val.vint n], { d with MaxIdleConnection := some h.length })
  | .maxConnectionLifetime n =>
    let n := if n = 0 then maxConnLt else n
    (h ++ [Val.vint n], { d with MaxConnectionLifetime := some h.length })
  | .maxConnectionIdleTime n =>
    let n := if n = 0 then maxConnIdlLt else n
    (h ++ [Val.vint n], { d with MaxConnectionIdleTime := some h.length })
  | .ping b => (h ++ [Val.vbool b], { d with Ping := some h.length })
  | .resultLimitPosition l => (h, { d with ResultLimitPosition := l })
  | .sequenceGenerator g => (h ++ [Val.vseq g], { d with SequenceGenerator := some h.length })

/-- The option loop at heap level, with the nil-skip rule. -/
def runOptsH (h : Heap) (d : DataInfoRef) : List (Option OptSpec) → Heap × DataInfoRef
  | [] => (h, d)
  | none :: rest => runOptsH h d rest
  | some o :: rest =>
    let r := applyOptH o h d
    runOptsH r.1 r.2 rest

/-- Go `Copy` at heap level including the option loop. -/
def CopyH (h : Heap) (di : DataInfoRef) (opts : List (Option OptSpec)) : Heap × DataInfoRef :=
  let r := CopyHeap h di
  runOptsH r.1 r.2 opts

/-- Heap extension: the new heap is the old one plus freshly allocated
cells. -/
def HExt (h h' : Heap) : Prop := ∃ t, h' = h ++ t

/-- Sample heap for concrete instantiations: one sequence-generator
cell at address 0. -/
def sampleHeap : Heap := [Val.vseq { UpsertQuery := "u", ResultQuery := "r", NamePlaceHolder := "n" }]

/-- Sample descriptor reference whose only pointer is the
sequence-generator field, aimed at address 0 of `sampleHeap`. -/
def sampleRef : DataInfoRef :=
  { Schema := none, ReferenceMode := none, ReferenceModePrefix := none,
    InterpolateTables := none, ConnectionString := none, DriverName := none,
    HelperID := none, ParameterInSequence := none, ParameterPlaceHolder := none,
    StringEnclosingChar := none, StringEscapeChar := none,
    ReservedWordEscapeChar := none, MaxOpenConnection := none,
    MaxIdleConnection := none, MaxConnectionLifetime := none,
    MaxConnectionIdleTime := none, Ping := none,
    ResultLimitPosition := REAR, SequenceGenerator := some 0 }

theorem copyOptCell_id {α : Type} (x : Option α) : copyOptCell x = x := by
  cases x <;> rfl

theorem copySeqGen_id (x : Option SequenceGeneratorInfo) : copySeqGen x = x := by
  cases x <;> rfl

theorem applyOptions_skip (n : DataInfo) (pre post : List (Option DataOption)) :
    applyOptions n (pre ++ none :: post) = applyOptions n (pre ++ post) := by
  induction pre generalizing n with
  | nil => rfl
  | cons hd tl ih =>
    cases hd with
    | none => exact ih n
    | some o => exact ih (o n)

theorem New_skip (pre post : List (Option DataOption)) :
    New (pre ++ none :: post) = New (pre ++ post) :=
  applyOptions_skip _ pre post

theorem listGetAppendLeft {α : Type} (l t : List α) (a : Nat) (ha : a < l.length) :
    (l ++ t).get? a = l.get? a := by
  induction l generalizing a with
  | nil => exact absurd ha (by simp)
  | cons x xs ih =>
    cases a with
    | zero => rfl
    | succ a => exact ih a (Nat.lt_of_succ_lt_succ ha)

theorem listGetSetNe {α : Type} (l : List α) (i j : Nat) (v : α) (hij : i ≠ j) :
    (l.set i v).get? j = l.get? j := by
  induction l generalizing i j with
  | nil => rfl
  | cons x xs ih =>
    cases i with
    | zero =>
      cases j with
      | zero => exact absurd rfl hij
      | succ j => rfl
    | succ i =>
      cases j with
      | zero => rfl
      | succ j => exact ih i j (fun he => hij (by rw [he]))

theorem listGetSome {α : Type} (l : List α) (a : Nat) (v : α) (hv : l.get? a = some v) :
    a < l.length := by
  induction l generalizing a with
  | nil => exact absurd hv (by simp)
  | cons x xs ih =>
    cases a with
    | zero => exact Nat.succ_pos _
    | succ a => exact Nat.succ_lt_succ (ih a hv)

theorem hext_refl (h : Heap) : HExt h h := ⟨[], by simp⟩

theorem hext_trans {a b c : Heap} (h1 : HExt a b) (h2 : HExt b c) : HExt a c := by
  obtain ⟨t1, rfl⟩ := h1
  obtain ⟨t2, rfl⟩ := h2
  exact ⟨t1 ++ t2, by simp⟩

theorem hext_length {h h' : Heap} (he : HExt h h') : h.length ≤ h'.length := by
  obtain ⟨t, rfl⟩ := he
  rw [List.length_append]
  exact Nat.le_add_right _ _

theorem hext_get {h h' : Heap} (he : HExt h h') {a : Nat} (ha : a < h.length) :
    h'.get? a = h.get? a := by
  obtain ⟨t, rfl⟩ := he
  exact listGetAppendLeft h t a ha

theorem copyCell_hext (h : Heap) (src : Option Nat) : HExt h (copyCell h src).1 := by
  cases src with
  | none => exact hext_refl h
  | some a =>
    cases hga : h.get? a with
    | none =>
      have he : copyCell h (some a) = (h, none) := by unfold copyCell; dsimp only; rw [hga]
      rw [he]
      exact hext_refl h
    | some v =>
      have he : copyCell h (some a) = (h ++ [v], some h.length) := by unfold copyCell; dsimp only; rw [hga]
      rw [he]
      exact ⟨[v], rfl⟩

theorem copySeqCell_hext (h : Heap) (src : Option Nat) : HExt h (copySeqCell h src).1 := by
  cases src with
  | none => exact hext_refl h
  | some a =>
    cases hga : h.get? a with
    | none =>
      have he : copySeqCell h (some a) = (h, none) := by unfold copySeqCell; dsimp only; rw [hga]
      rw [he]
      exact hext_refl h
    | some v =>
      cases v with
      | vseq g =>
        have he : copySeqCell h (some a)
            = (h ++ [Val.vseq { UpsertQuery := g.UpsertQuery, ResultQuery := g.ResultQuery,
                                NamePlaceHolder := g.NamePlaceHolder }], some h.length) := by
          unfold copySeqCell; dsimp only; rw [hga]
        rw [he]
        exact ⟨_, rfl⟩
      | vstr s =>
        have he : copySeqCell h (some a) = (h, none) := by unfold copySeqCell; dsimp only; rw [hga]
        rw [he]
        exact hext_refl h
      | vbool b =>
        have he : copySeqCell h (some a) = (h, none) := by unfold copySeqCell; dsimp only; rw [hga]
        rw [he]
        exact hext_refl h
      | vint n =>
        have he : copySeqCell h (some a) = (h, none) := by unfold copySeqCell; dsimp only; rw [hga]
        rw [he]
        exact hext_refl h

theorem CopyHeap_hext (h : Heap) (di : DataInfoRef) : HExt h (CopyHeap h di).1 := by
  show HExt h (copySeqCell _ _).1
  refine hext_trans ?_ (copySeqCell_hext _ _)
  iterate 17 refine hext_trans ?_ (copyCell_hext _ _)
  exact hext_refl h

theorem CopyHeap_seq (h : Heap) (di : DataInfoRef) :
    ∃ hp : Heap,
      (CopyHeap h di).1 = (copySeqCell hp di.SequenceGenerator).1 ∧
      (CopyHeap h di).2.SequenceGenerator = (copySeqCell hp di.SequenceGenerator).2 ∧
      HExt h hp := by
  refine ⟨_, rfl, rfl, ?_⟩
  iterate 17 refine hext_trans ?_ (copyCell_hext _ _)
  exact hext_refl h

theorem applyOptH_hext (o : OptSpec) (h : Heap) (d : DataInfoRef) :
    HExt h (applyOptH o h d).1 := by
  cases o <;> simp only [applyOptH] <;>
    first
      | exact ⟨_, rfl⟩
      | exact hext_refl h
      | (split <;> first | exact hext_refl h | exact ⟨_, rfl⟩)

theorem runOptsH_hext (opts : List (Option OptSpec)) :
    ∀ (h : Heap) (d : DataInfoRef), HExt h (runOptsH h d opts).1 := by
  induction opts with
  | nil => intro h d; exact hext_refl h
  | cons hd tl ih =>
    intro h d
    cases hd with
    | none => exact ih h d
    | some o => exact hext_trans (applyOptH_hext o h d) (ih _ _)

/-- C1: every fallback-variant option (`ReferenceModePrefix`,
`ParameterPlaceHolder`, `StringEnclosingChar`, `StringEscapeChar`,
`ReservedWordEscapeChar`, `MaxOpenConnection`, `MaxIdleConnection`,
`MaxConnectionLifetime`, `MaxConnectionIdleTime`) applied with the zero
value sets the target field to the process-wide default, and applied with
any non-zero candidate sets the field to that candidate verbatim. -/
theorem fallback_options (d : DataInfo) (s : String) (n : Int)
    (hs : s ≠ "") (hn : n ≠ 0) :
    (ReferenceModePrefix "" d).ReferenceModePrefix = some "ref"
  ∧ (ReferenceModePrefix s d).ReferenceModePrefix = some s
  ∧ (ParameterPlaceHolder "" d).ParameterPlaceHolder = some "?"
  ∧ (ParameterPlaceHolder s d).ParameterPlaceHolder = some s
  ∧ (StringEnclosingChar "" d).StringEnclosingChar = some "\'"
  ∧ (StringEnclosingChar s d).StringEnclosingChar = some s
  ∧ (StringEscapeChar "" d).StringEscapeChar = some "\\"
  ∧ (StringEscapeChar s d).StringEscapeChar = some s
  ∧ (ReservedWordEscapeChar "" d).ReservedWordEscapeChar = some "[]"
  ∧ (ReservedWordEscapeChar s d).ReservedWordEscapeChar = some s
  ∧ (MaxOpenConnection 0 d).MaxOpenConnection = some 25
  ∧ (MaxOpenConnection n d).MaxOpenConnection = some n
  ∧ (MaxIdleConnection 0 d).MaxIdleConnection = some 25
  ∧ (MaxIdleConnection n d).MaxIdleConnection = some n
  ∧ (MaxConnectionLifetime 0 d).MaxConnectionLifetime = some (5 * 60 * 1000000000)
  ∧ (MaxConnectionLifetime n d).MaxConnectionLifetime = some n
  ∧ (MaxConnectionIdleTime 0 d).MaxConnectionIdleTime = some (3 * 60 * 1000000000)
  ∧ (MaxConnectionIdleTime n d).MaxConnectionIdleTime = some n := by
  refine ⟨?_, ?_, ?_, ?_, ?_, ?_, ?_, ?_, ?_, ?_, ?_, ?_, ?_, ?_, ?_, ?_, ?_, ?_⟩ <;>
    simp [ReferenceModePrefix, ParameterPlaceHolder, StringEnclosingChar,
          StringEscapeChar, ReservedWordEscapeChar, MaxOpenConnection,
          MaxIdleConnection, MaxConnectionLifetime, MaxConnectionIdleTime,
          refModePfx, paramPh, strEncChar, strEscChar, resWrdEscChar,
          maxOpnConn, maxIdlConn, maxConnLt, maxConnIdlLt, hs, hn]

/-- Witness for C1 at a concrete descriptor and concrete non-zero
candidates. -/
theorem fallback_options_witness :
    (ReferenceModePrefix "" (New [])).ReferenceModePrefix = some "ref"
  ∧ (ReferenceModePrefix "Z" (New [])).ReferenceModePrefix = some "Z"
  ∧ (ParameterPlaceHolder "" (New [])).ParameterPlaceHolder = some "?"
  ∧ (ParameterPlaceHolder "Z" (New [])).ParameterPlaceHolder = some "Z"
  ∧ (StringEnclosingChar "" (New [])).StringEnclosingChar = some "\'"
  ∧ (StringEnclosingChar "Z" (New [])).StringEnclosingChar = some "Z"
  ∧ (StringEscapeChar "" (New [])).StringEscapeChar = some "\\"
  ∧ (StringEscapeChar "Z" (New [])).StringEscapeChar = some "Z"
  ∧ (ReservedWordEscapeChar "" (New [])).ReservedWordEscapeChar = some "[]"
  ∧ (ReservedWordEscapeChar "Z" (New [])).ReservedWordEscapeChar = some "Z"
  ∧ (MaxOpenConnection 0 (New [])).MaxOpenConnection = some 25
  ∧ (MaxOpenConnection 7 (New [])).MaxOpenConnection = some 7
  ∧ (MaxIdleConnection 0 (New [])).MaxIdleConnection = some 25
  ∧ (MaxIdleConnection 7 (New [])).MaxIdleConnection = some 7
  ∧ (MaxConnectionLifetime 0 (New [])).MaxConnectionLifetime = some (5 * 60 * 1000000000)
  ∧ (MaxConnectionLifetime 7 (New [])).MaxConnectionLifetime = some 7
  ∧ (MaxConnectionIdleTime 0 (New [])).MaxConnectionIdleTime = some (3 * 60 * 1000000000)
  ∧ (MaxConnectionIdleTime 7 (New [])).MaxConnectionIdleTime = some 7 :=
  fallback_options (New []) "Z" 7 (by decide) (by decide)

/-- C2: `ConnectionString`, `DriverName` and `HelperID` applied with the
empty string perform no set at all: the whole descriptor, and in
particular the targeted field, is returned unchanged. -/
theorem empty_skip_options (d : DataInfo) :
    ConnectionString "" d = d ∧ DriverName "" d = d ∧ HelperID "" d = d := by
  refine ⟨?_, ?_, ?_⟩ <;> simp [ConnectionString, DriverName, HelperID]

/-- C5: `New` with no options yields every documented process-wide
default, and leaves the sequence generator absent. -/
theorem new_defaults :
    (New []).ReferenceModePrefix = some "ref"
  ∧ (New []).ParameterPlaceHolder = some "?"
  ∧ (New []).StringEnclosingChar = some "\'"
  ∧ (New []).StringEscapeChar = some "\\"
  ∧ (New []).ReservedWordEscapeChar = some "[]"
  ∧ (New []).InterpolateTables = some true
  ∧ (New []).ParameterInSequence = some true
  ∧ (New []).MaxOpenConnection = some 25
  ∧ (New []).MaxIdleConnection = some 25
  ∧ (New []).MaxConnectionLifetime = some (5 * 60 * 1000000000)
  ∧ (New []).MaxConnectionIdleTime = some (3 * 60 * 1000000000)
  ∧ (New []).ResultLimitPosition = REAR
  ∧ (New []).SequenceGenerator = none := by
  decide

/-- C6: `NewMinimal` is exactly `New` with the three mandatory options
prefixed to the caller's options, and at the concrete arguments of the
spec it sets the three mandatory fields and leaves every other field as
`New` with no options produces it. -/
theorem newMinimal_eq_new :
    (∀ (connStr schema driver u : String) (options : List (Option DataOption)),
      NewMinimal connStr schema driver u options
        = New ([some (ConnectionString connStr), some (Schema schema),
                some (DriverName driver)] ++ options))
  ∧ (∀ u : String,
      (NewMinimal "dsn://x" "public" "pgsql" u []).ConnectionString = some "dsn://x"
    ∧ (NewMinimal "dsn://x" "public" "pgsql" u []).Schema = some "public"
    ∧ (NewMinimal "dsn://x" "public" "pgsql" u []).DriverName = some "pgsql"
    ∧ (NewMinimal "dsn://x" "public" "pgsql" u []).ReferenceMode = (New []).ReferenceMode
    ∧ (NewMinimal "dsn://x" "public" "pgsql" u []).ReferenceModePrefix = (New []).ReferenceModePrefix
    ∧ (NewMinimal "dsn://x" "public" "pgsql" u []).InterpolateTables = (New []).InterpolateTables
    ∧ (NewMinimal "dsn://x" "public" "pgsql" u []).HelperID = (New []).HelperID
    ∧ (NewMinimal "dsn://x" "public" "pgsql" u []).ParameterInSequence = (New []).ParameterInSequence
    ∧ (NewMinimal "dsn://x" "public" "pgsql" u []).ParameterPlaceHolder = (New []).ParameterPlaceHolder
    ∧ (NewMinimal "dsn://x" "public" "pgsql" u []).StringEnclosingChar = (New []).StringEnclosingChar
    ∧ (NewMinimal "dsn://x" "public" "pgsql" u []).StringEscapeChar = (New []).StringEscapeChar
    ∧ (NewMinimal "dsn://x" "public" "pgsql" u []).ReservedWordEscapeChar = (New []).ReservedWordEscapeChar
    ∧ (NewMinimal "dsn://x" "public" "pgsql" u []).MaxOpenConnection = (New []).MaxOpenConnection
    ∧ (NewMinimal "dsn://x" "public" "pgsql" u []).MaxIdleConnection = (New []).MaxIdleConnection
    ∧ (NewMinimal "dsn://x" "public" "pgsql" u []).MaxConnectionLifetime = (New []).MaxConnectionLifetime
    ∧ (NewMinimal "dsn://x" "public" "pgsql" u []).MaxConnectionIdleTime = (New []).MaxConnectionIdleTime
    ∧ (NewMinimal "dsn://x" "public" "pgsql" u []).Ping = (New []).Ping
    ∧ (NewMinimal "dsn://x" "public" "pgsql" u []).ResultLimitPosition = (New []).ResultLimitPosition
    ∧ (NewMinimal "dsn://x" "public" "pgsql" u []).SequenceGenerator = (New []).SequenceGenerator) := by
  constructor
  · intro c s dr u os
    cases os with
    | nil => simp [NewMinimal]
    | cons hd tl => simp [NewMinimal]
  · intro u
    exact ⟨rfl, rfl, rfl, rfl, rfl, rfl, rfl, rfl, rfl, rfl, rfl, rfl, rfl, rfl,
           rfl, rfl, rfl, rfl, rfl⟩

/-- C8: the descriptor produced by `NewMinimal` does not depend on the
`user` argument. -/
theorem newMinimal_ignores_user (connStr schema driver u1 u2 : String)
    (options : List (Option DataOption)) :
    NewMinimal connStr schema driver u1 options
      = NewMinimal connStr schema driver u2 options := rfl

/-- C9: a nil entry anywhere in the option sequence of `New`,
`NewMinimal` or `Copy` is skipped as a no-op, and in particular
`New [nil]` equals `New []`. -/
theorem nil_option_noop :
    (∀ pre post : List (Option DataOption),
      New (pre ++ none :: post) = New (pre ++ post))
  ∧ (∀ (connStr schema driver u : String) (pre post : List (Option DataOption)),
      NewMinimal connStr schema driver u (pre ++ none :: post)
        = NewMinimal connStr schema driver u (pre ++ post))
  ∧ (∀ (di : DataInfo) (pre post : List (Option DataOption)),
      Copy di (pre ++ none :: post) = Copy di (pre ++ post))
  ∧ New [none] = New [] := by
  refine ⟨fun pre post => New_skip pre post, ?_, ?_, rfl⟩
  · intro c s dr u pre post
    simp only [NewMinimal]
    by_cases h2 : (pre ++ post).length > 0
    · have h1 : (pre ++ none :: post).length > 0 := by simp
      rw [if_pos h1, if_pos h2, ← List.append_assoc, ← List.append_assoc]
      exact New_skip _ post
    · have hpp : pre ++ post = [] := List.length_eq_zero.mp (Nat.eq_zero_of_not_pos h2)
      obtain ⟨hpre, hpost⟩ := List.append_eq_nil.mp hpp
      subst hpre
      subst hpost
      have h1 : (([] : List (Option DataOption)) ++ none :: []).length > 0 := by simp
      rw [if_pos h1, if_neg h2]
      have hx := New_skip
        [some (ConnectionString c), some (Schema s), some (DriverName dr)] []
      rw [List.append_nil] at hx
      exact hx
  · intro di pre post
    exact applyOptions_skip _ pre post

/-- C10: options are applied in order, so a later option targeting the
same field overrides an earlier one. -/
theorem later_option_overrides (a b : String) :
    (New [some (Schema a), some (Schema b)]).Schema = some b := rfl

/-- C3: `Copy` with no options is deep equality — every field (presence
and value, the sequence-generator sub-fields individually, and
`ResultLimitPosition` verbatim) is reproduced — and, at heap level, the
clone's sequence-generator cell is a fresh address distinct from the
source's, so overwriting the clone's cell leaves the source's cell
unchanged. -/
theorem copy_no_options_deep_equal :
    (∀ di : DataInfo, Copy di [] = di)
  ∧ (∀ (h : Heap) (di : DataInfoRef) (a : Nat) (g : SequenceGeneratorInfo)
       (a' : Nat) (v : Val),
      di.SequenceGenerator = some a →
      h.get? a = some (Val.vseq g) →
      (CopyHeap h di).2.SequenceGenerator = some a' →
      a' ≠ a ∧ ((CopyHeap h di).1.set a' v).get? a = some (Val.vseq g)) := by
  constructor
  · intro di
    simp only [Copy, applyOptions, copyOptCell_id, copySeqGen_id]
  · intro h di a g a' v hdi hga hcl
    obtain ⟨hp, h1, h2, hext⟩ := CopyHeap_seq h di
    have haln : a < h.length := listGetSome h a _ hga
    have hpa : hp.get? a = some (Val.vseq g) := by
      rw [hext_get hext haln]
      exact hga
    have hcs : copySeqCell hp (some a)
        = (hp ++ [Val.vseq { UpsertQuery := g.UpsertQuery, ResultQuery := g.ResultQuery,
                             NamePlaceHolder := g.NamePlaceHolder }], some hp.length) := by
      unfold copySeqCell
      dsimp only
      rw [hpa]
    rw [h2, hdi, hcs] at hcl
    have ha' : hp.length = a' := Option.some.inj hcl
    have halen : a < hp.length := lt_of_lt_of_le haln (hext_length hext)
    have hne : a' ≠ a := by
      rw [← ha']
      exact Nat.ne_of_gt halen
    refine ⟨hne, ?_⟩
    rw [h1, hdi, hcs]
    dsimp only
    rw [listGetSetNe _ a' a v hne, listGetAppendLeft hp _ a halen]
    exact hpa

/-- Witness for C3: a heap holding one sequence-generator record at
address 0, whose copy lands at the fresh address 1; overwriting the copy
leaves address 0 intact. -/
theorem copy_no_options_deep_equal_witness :
    Copy (New []) [] = New []
  ∧ ((1 : Nat) ≠ 0
    ∧ ((CopyHeap sampleHeap sampleRef).1.set 1
        (Val.vseq { UpsertQuery := "u2", ResultQuery := "r", NamePlaceHolder := "n" })).get? 0
      = some (Val.vseq { UpsertQuery := "u", ResultQuery := "r", NamePlaceHolder := "n" })) :=
  ⟨copy_no_options_deep_equal.1 (New []),
   copy_no_options_deep_equal.2 sampleHeap sampleRef 0
     { UpsertQuery := "u", ResultQuery := "r", NamePlaceHolder := "n" } 1
     (Val.vseq { UpsertQuery := "u2", ResultQuery := "r", NamePlaceHolder := "n" })
     rfl rfl (by decide)⟩

/-- C4: `Copy` never mutates the source: at heap level, for any option
sequence, every cell of the pre-existing heap — in particular every cell
any field of the source descriptor points at — reads the same after the
call as before; the copy and the options only allocate fresh cells. -/
theorem copy_never_mutates_source (h : Heap) (di : DataInfoRef)
    (opts : List (Option OptSpec)) (a : Nat) (ha : a < h.length) :
    (CopyH h di opts).1.get? a = h.get? a := by
  have hext : HExt h (CopyH h di opts).1 :=
    hext_trans (CopyHeap_hext h di) (runOptsH_hext opts _ _)
  exact hext_get hext ha

/-- Witness for C4 at the sample heap, with a non-trivial option list. -/
theorem copy_never_mutates_source_witness :
    (CopyH sampleHeap sampleRef [some (OptSpec.schema "x"), none]).1.get? 0
      = sampleHeap.get? 0 :=
  copy_never_mutates_source sampleHeap sampleRef
    [some (OptSpec.schema "x"), none] 0 (by decide)

/-- C7: every option function of the package mutates at most its one
target field — every other field is unchanged — and with a
non-empty/non-zero candidate the target field is set to exactly the
candidate. -/
theorem option_single_field (o : OptSpec) (d : DataInfo) (f : Field) :
    (f ≠ targetField o → fieldVal (applyOpt o d) f = fieldVal d f)
  ∧ (nonzeroCand o → fieldVal (applyOpt o d) (targetField o) = candVal o) := by
  constructor
  · intro hf
    cases o <;> cases f <;>
      first
        | exact absurd rfl hf
        | rfl
        | (simp only [applyOpt, ConnectionString, DriverName, HelperID, fieldVal]
           split <;> rfl)
  · intro hz
    cases o <;>
      simp_all [applyOpt, Schema, ReferenceMode, ReferenceModePrefix, InterpolateTables,
        ConnectionString, DriverName, HelperID, ParameterInSequence, ParameterPlaceHolder,
        StringEnclosingChar, StringEscapeChar, ReservedWordEscapeChar, MaxOpenConnection,
        MaxIdleConnection, MaxConnectionLifetime, MaxConnectionIdleTime, Ping,
        ResultLimitPosition, SequenceGenerator, fieldVal, targetField, candVal, nonzeroCand]

/-- Witness for C7: `ParameterPlaceHolder` with the non-empty candidate
"@" leaves the schema field alone and writes exactly "@". -/
theorem option_single_field_witness :
    fieldVal (applyOpt (OptSpec.parameterPlaceHolder "@") (New [])) Field.schema
      = fieldVal (New []) Field.schema
  ∧ fieldVal (applyOpt (OptSpec.parameterPlaceHolder "@") (New []))
      (targetField (OptSpec.parameterPlaceHolder "@"))
      = candVal (OptSpec.parameterPlaceHolder "@") :=
  ⟨(option_single_field (OptSpec.parameterPlaceHolder "@") (New []) Field.schema).1
     (by decide),
   (option_single_field (OptSpec.parameterPlaceHolder "@") (New []) Field.schema).2
     (show ("@" : String) ≠ "" by decide)⟩

end Datainfo
